import Mathlib

/-!
Shallow embedding of the status-monitoring core of the `siren` bot.

The embedding mirrors, function by function, the Go source:
  * `cmd/bot/main.go` — `worker.updateStatus`, `worker.notFound`,
    `worker.removeNotFound`, `worker.cleanStatuses`, `worker.processStatusUpdate`,
    `worker.unknownsNumber`, `worker.processPeriodic`;
  * `lib/stripchat.go` — `StartStripchatAPIChecker` (the body of one round of its
    checker goroutine);
  * `lib/bongacams.go` — `BongaCamsChecker.checkEndpoint`;
  * the CAM4 checker file — `Cam4Checker.checkEndpoint`, `Cam4CanonicalModelID`.

Database state is modelled per model: the number of `signals` rows for the model
and its optional `statuses` row.  Go maps built by the checkers are modelled as
association lists (insertion order preserved; only emptiness and membership of
lower-cased keys matter to the claims).  `strings.ToLower` is modelled by
`Char.toLower` applied to every character (the identifiers involved are ASCII:
model IDs must match `^[a-z0-9_]+$` / `[A-Za-z0-9_]+`).  Timestamps and
durations are `Int`, mirroring Go `int` / `time.Time` comparisons.
-/

/-- `lib.StatusKind`. -/
inductive StatusKind where
  | unknown
  | offline
  | online
  | notFound
  | denied
  | exist
deriving DecidableEq

/-- `lib.StatusUpdate`. -/
structure StatusUpdate where
  modelID : String
  status : StatusKind
deriving DecidableEq

/-- The configuration fields of `config` read by the modelled functions.
`errorReportingPeriod` is the duration added to `now` by `processPeriodic`
(`time.Minute * ErrorReportingPeriodMinutes` in the source). -/
structure Config where
  offlineNotifications : Bool
  offlineThresholdSeconds : Int
  notFoundThreshold : Nat
  errorThreshold : Nat
  errorDenominator : Nat
  errorReportingPeriod : Int
deriving DecidableEq

/-- One row of the `statuses` table: `status`, `not_found`, `last_online`. -/
structure StatusRecord where
  status : StatusKind
  notFound : Nat
  lastOnline : Int
deriving DecidableEq

/-- The database state relevant to one model: how many `signals` rows mention it
and its optional `statuses` row. -/
structure ModelState where
  signals : Nat
  record : Option StatusRecord
deriving DecidableEq

/-- `worker.updateStatus` (cmd/bot/main.go).  Returns the `notify` flag and the
updated per-model state.  Mirrors the source order: first the `not_found` reset
(or the NotFound→Offline rewrite), then the `signals` guard, then the
insert-or-update of the `statuses` row. -/
def updateStatus (cfg : Config) (s : ModelState) (newStatus : StatusKind)
    (timestamp : Int) : Bool × ModelState :=
  let s1 : ModelState :=
    if newStatus ≠ StatusKind.notFound then
      { s with record := s.record.map (fun r => { r with notFound := 0 }) }
    else s
  let st : StatusKind :=
    if newStatus = StatusKind.notFound then StatusKind.offline else newStatus
  if s1.signals = 0 then (false, s1)
  else
    match s1.record with
    | none =>
        let lastOnline : Int := if st = StatusKind.online then timestamp else 0
        (true, { s1 with record := some ⟨st, 0, lastOnline⟩ })
    | some r =>
        let changeOK : Bool :=
          cfg.offlineNotifications ||
            (!(r.status == StatusKind.online) && st == StatusKind.online)
        let durationOK : Bool :=
          cfg.offlineNotifications ||
            decide (timestamp - r.lastOnline ≥ cfg.offlineThresholdSeconds)
        let notify : Bool := !(r.status == st) && changeOK && durationOK
        let lastOnline : Int :=
          if st = StatusKind.online then timestamp else r.lastOnline
        (notify, { s1 with record := some ⟨st, r.notFound, lastOnline⟩ })

/-- `worker.notFound` (cmd/bot/main.go): if the model has a `statuses` row,
increment `not_found` and report whether the streak now exceeds
`NotFoundThreshold`. -/
def notFound (cfg : Config) (s : ModelState) : Bool × ModelState :=
  match s.record with
  | none => (false, s)
  | some r =>
      let r1 : StatusRecord := { r with notFound := r.notFound + 1 }
      (decide (r1.notFound > cfg.notFoundThreshold), { s with record := some r1 })

/-- `worker.cleanStatuses`, restricted to the model at hand: delete the
`statuses` row when no `signals` row mentions the model. -/
def cleanStatuses (s : ModelState) : ModelState :=
  if s.signals = 0 then { s with record := none } else s

/-- `worker.removeNotFound`: delete every `signals` row of the model, then
`cleanStatuses`. -/
def removeNotFound (s : ModelState) : ModelState :=
  cleanStatuses { s with signals := 0 }

/-- The health-monitor state: the fixed-size `unknowns` buffer and the write
position `unknownsPos`. -/
structure HealthState where
  unknowns : List Bool
  unknownsPos : Nat
deriving DecidableEq

/-- The two assignments at the end of `worker.processStatusUpdate`:
`w.unknowns[w.unknownsPos] = ...; w.unknownsPos = (w.unknownsPos + 1) % D`. -/
def recordUnknown (errorDenominator : Nat) (h : HealthState) (isUnk : Bool) :
    HealthState :=
  { unknowns := h.unknowns.set h.unknownsPos isUnk
    unknownsPos := (h.unknownsPos + 1) % errorDenominator }

/-- The worker state touched by `processStatusUpdate` for one model. -/
structure WorkerState where
  model : ModelState
  health : HealthState
deriving DecidableEq

/-- The observable outcome of one `processStatusUpdate` call:
the new state, whether the "permanently gone" path ran
(`reportNotFound` + `removeNotFound`), and the `notify` flag that drives
`reportStatus`. -/
structure StepResult where
  state : WorkerState
  goneReported : Bool
  notify : Bool
deriving DecidableEq

/-- `worker.processStatusUpdate` (cmd/bot/main.go).  Note the short-circuit:
`updateStatus` is only called when the status is not Unknown. -/
def processStatusUpdate (cfg : Config) (w : WorkerState) (status : StatusKind)
    (timestamp : Int) : StepResult :=
  let gm : Bool × ModelState :=
    if status = StatusKind.notFound then
      let gs := notFound cfg w.model
      if gs.1 then (true, removeNotFound gs.2) else (false, gs.2)
    else (false, w.model)
  let nm : Bool × ModelState :=
    if status ≠ StatusKind.unknown then updateStatus cfg gm.2 status timestamp
    else (false, gm.2)
  { state :=
      { model := nm.2
        health := recordUnknown cfg.errorDenominator w.health
          (status == StatusKind.unknown) }
    goneReported := gm.1
    notify := nm.1 }

/-- `worker.unknownsNumber`: count the `true` samples in the buffer. -/
def unknownsNumber (unknowns : List Bool) : Nat :=
  unknowns.foldl (fun acc s => if s then acc + 1 else acc) 0

/-- The state read and written by `worker.processPeriodic`'s error-rate check. -/
structure PeriodicState where
  unknowns : List Bool
  nextErrorReport : Int
deriving DecidableEq

/-- The error-rate alert part of `worker.processPeriodic`: raise an alert iff
`nextErrorReport` lies before `now` and the unknowns count exceeds
`errorThreshold`; on alert, move `nextErrorReport` to `now` plus the reporting
period. -/
def processPeriodic (cfg : Config) (now : Int) (s : PeriodicState) :
    Bool × PeriodicState :=
  if s.nextErrorReport < now ∧ unknownsNumber s.unknowns > cfg.errorThreshold then
    (true, { s with nextErrorReport := now + cfg.errorReportingPeriod })
  else
    (false, s)

/-- `strings.ToLower`, on the ASCII identifiers the checkers handle. -/
def lowerStr (s : String) : String :=
  String.mk (s.toList.map Char.toLower)

/-- The notification rule exactly as the specification words it, for comparison
with `updateStatus`: `notify = (storedStatus ≠ observedStatus) AND
changeAllowed AND durationAllowed`, with an absent record read as stored status
Unknown and last-online 0. -/
def claimNotify (cfg : Config) (stored : StatusKind) (lastOnline : Int)
    (observed : StatusKind) (now : Int) : Bool :=
  (!(stored == observed)) &&
    (cfg.offlineNotifications || observed == StatusKind.online) &&
    (cfg.offlineNotifications ||
      decide (now - lastOnline ≥ cfg.offlineThresholdSeconds))

/-- Outcome of decoding a response body (`json.Decoder.Decode`). -/
inductive DecodeOutcome (α : Type) where
  | decodeError
  | parsed (value : α)
deriving DecidableEq

/-- Outcome of `onlineQuery` as the checkers branch on it: either the query
itself failed, or it yielded an HTTP status code and a body (the body is
inspected only when the code is 200). -/
inductive QueryOutcome (α : Type) where
  | queryError
  | response (statusCode : Nat) (body : DecodeOutcome α)
deriving DecidableEq

/-- `stripchatModel`: the username field of one roster entry. -/
structure StripchatModel where
  username : String
deriving DecidableEq

/-- Modelled from the spec: `lib.sendUnknowns` is not under `src/`; §4.3 states
that on failure every entity's result is Unknown, so it emits one Unknown
update per watched model. -/
def sendUnknowns (models : List String) : List StatusUpdate :=
  models.map (fun m => { modelID := m, status := StatusKind.unknown })

/-- One value sent by the checker goroutine: either on the `elapsed` channel or
on the `output` channel. -/
inductive Emission where
  | elapsedValue (elapsed : Int)
  | update (u : StatusUpdate)
deriving DecidableEq

/-- The status updates produced by one round of `StartStripchatAPIChecker`
(lib/stripchat.go): on query failure, non-200 status, or decode failure every
model is Unknown; on success a model is Online iff its ID occurs among the
lower-cased roster usernames, else Offline. -/
def stripchatRoundUpdates (models : List String)
    (q : QueryOutcome (List StripchatModel)) : List StatusUpdate :=
  match q with
  | QueryOutcome.queryError => sendUnknowns models
  | QueryOutcome.response code body =>
      if code ≠ 200 then sendUnknowns models
      else
        match body with
        | DecodeOutcome.decodeError => sendUnknowns models
        | DecodeOutcome.parsed parsed =>
            let hash : List String := parsed.map (fun m => lowerStr m.username)
            models.map (fun modelID =>
              { modelID := modelID
                status := if hash.contains modelID then StatusKind.online
                  else StatusKind.offline })

/-- One full round of the `StartStripchatAPIChecker` goroutine, in channel-send
order: the elapsed duration is sent first, then the per-model updates. -/
def stripchatRound (models : List String) (q : QueryOutcome (List StripchatModel))
    (elapsed : Int) : List Emission :=
  Emission.elapsedValue elapsed :: (stripchatRoundUpdates models q).map Emission.update

/-- The values sent on the `elapsed` channel during a round. -/
def elapsedEmissions (ems : List Emission) : List Int :=
  ems.filterMap (fun em =>
    match em with
    | Emission.elapsedValue d => some d
    | Emission.update _ => none)

/-- The values sent on the `output` channel during a round. -/
def updateEmissions (ems : List Emission) : List StatusUpdate :=
  ems.filterMap (fun em =>
    match em with
    | Emission.elapsedValue _ => none
    | Emission.update u => some u)

/-- The error cases of `checkEndpoint`. -/
inductive CheckError where
  | sendError
  | queryStatus (code : Nat)
  | parseError
  | zeroOnlineModels
deriving DecidableEq

/-- The `(onlineModels, images, err)` triple returned by `checkEndpoint`;
the Go maps are association lists here, `nil` maps are `[]`. -/
structure EndpointResult where
  onlineModels : List (String × StatusKind)
  images : List (String × String)
  err : Option CheckError
deriving DecidableEq

/-- `bongacamsModel`: username and live-thumbnail URL of one roster entry. -/
structure BongacamsModel where
  username : String
  thumbnailImageMediumLive : String
deriving DecidableEq

/-- `BongaCamsChecker.checkEndpoint` (lib/bongacams.go): query error, non-200
status, and decode error return empty maps and an error; so does a decoded
zero-length roster ("zero online models reported"); otherwise each roster
entry becomes an Online entry under its lower-cased username. -/
def bongaCamsCheckEndpoint (q : QueryOutcome (List BongacamsModel)) :
    EndpointResult :=
  match q with
  | QueryOutcome.queryError => ⟨[], [], some CheckError.sendError⟩
  | QueryOutcome.response code body =>
      if code ≠ 200 then ⟨[], [], some (CheckError.queryStatus code)⟩
      else
        match body with
        | DecodeOutcome.decodeError => ⟨[], [], some CheckError.parseError⟩
        | DecodeOutcome.parsed parsed =>
            if parsed.length = 0 then ⟨[], [], some CheckError.zeroOnlineModels⟩
            else
              ⟨parsed.map (fun m => (lowerStr m.username, StatusKind.online)),
                parsed.map (fun m =>
                  (lowerStr m.username, "https:" ++ m.thumbnailImageMediumLive)),
                none⟩

/-- `cam4Model`: nickname and big-thumbnail URL of one roster entry. -/
structure Cam4Model where
  nickname : String
  thumbBig : String
deriving DecidableEq

/-- `Cam4Checker.checkEndpoint`: like the BongaCams one but with *no*
zero-length guard — a decoded empty roster is returned as a success with empty
maps. -/
def cam4CheckEndpoint (q : QueryOutcome (List Cam4Model)) : EndpointResult :=
  match q with
  | QueryOutcome.queryError => ⟨[], [], some CheckError.sendError⟩
  | QueryOutcome.response code body =>
      if code ≠ 200 then ⟨[], [], some (CheckError.queryStatus code)⟩
      else
        match body with
        | DecodeOutcome.decodeError => ⟨[], [], some CheckError.parseError⟩
        | DecodeOutcome.parsed parsed =>
            ⟨parsed.map (fun m => (lowerStr m.nickname, StatusKind.online)),
              parsed.map (fun m => (lowerStr m.nickname, m.thumbBig)),
              none⟩

/-- A word character of the CAM4 profile-URL pattern `[A-Za-z0-9_]`. -/
def isWordChar (c : Char) : Bool :=
  (decide ('A' ≤ c) && decide (c ≤ 'Z')) ||
    (decide ('a' ≤ c) && decide (c ≤ 'z')) ||
    (decide ('0' ≤ c) && decide (c ≤ '9')) || c == '_'

/-- Strip a literal pattern from the head of a character list, or fail. -/
def dropPfx : List Char → List Char → Option (List Char)
  | [], cs => some cs
  | _ :: _, [] => none
  | p :: ps, c :: cs => if c = p then dropPfx ps cs else none

/-- The characters of `https://`. -/
def httpsChars : List Char := ['h', 't', 't', 'p', 's', ':', '/', '/']

/-- The characters of `http://`. -/
def httpChars : List Char := ['h', 't', 't', 'p', ':', '/', '/']

/-- The characters of `cam4.com/`. -/
def cam4HostChars : List Char := ['c', 'a', 'm', '4', '.', 'c', 'o', 'm', '/']

/-- The optional scheme `(?:https?://)?` of `cam4ModelRegex`.  The two literal
alternatives are mutually exclusive with each other and with the following
`cam4.com/` literal, so committing to the first matching one is faithful to
the regex. -/
def stripScheme (cs : List Char) : List Char :=
  match dropPfx httpsChars cs with
  | some r => r
  | none =>
      match dropPfx httpChars cs with
      | some r => r
      | none => cs

/-- The `([A-Za-z0-9_]+)(?:[/?].*)?$` part of `cam4ModelRegex` applied to
what follows `cam4.com/`: the capture is the maximal leading word-character
run; it must be non-empty, and what follows it must be empty or a `/`- or
`?`-introduced newline-free trailing part (Go RE2 without multi-line flags:
`$` is the end of the text and `.` matches any character except a newline). -/
def cam4Word (rest : List Char) : Option (List Char) :=
  let word := rest.takeWhile isWordChar
  if word.isEmpty then none
  else
    match rest.dropWhile isWordChar with
    | [] => some word
    | c :: cs2 =>
        if (c = '/' ∨ c = '?') ∧ cs2.all (fun d => !(d == '\n')) = true then
          some word
        else none

/-- The capture group of `cam4ModelRegex`
`^(?:https?://)?cam4\.com/([A-Za-z0-9_]+)(?:[/?].*)?$`, or `none` when the
regex does not match the whole input. -/
def cam4ExtractChars (cs : List Char) : Option (List Char) :=
  match dropPfx cam4HostChars (stripScheme cs) with
  | none => none
  | some rest => cam4Word rest

/-- `lib.Cam4CanonicalModelID`: replace the input by the captured model-ID
portion when the profile-URL regex matches (`len(m) == 2`), then lower-case
the result (`strings.ToLower`). -/
def Cam4CanonicalModelID (name : String) : String :=
  match cam4ExtractChars name.toList with
  | some m => String.mk (m.map Char.toLower)
  | none => String.mk (name.toList.map Char.toLower)

/-- Two character lists that differ only in letter case. -/
def sameLetters (a b : List Char) : Prop :=
  a.map Char.toLower = b.map Char.toLower

/-- The spellings of one entity identifier the canonicalization claim
quantifies over: the bare identifier in any letter case, or a full CAM4
profile-URL form — an optional scheme, the host `cam4.com/`, the identifier
portion in any letter case, and an optional `/`- or `?`-introduced newline-free
trailing part.  Identifier portions consist of word characters
(`[A-Za-z0-9_]`), as both the profile-URL regex and the model-ID validation
regex require. -/
inductive SpellingOf (id : List Char) : List Char → Prop
  | bare (b : List Char) :
      (∀ c ∈ b, isWordChar c = true) →
      sameLetters b id →
      SpellingOf id b
  | url (scheme b tail : List Char) :
      (∀ c ∈ b, isWordChar c = true) →
      sameLetters b id →
      (scheme = [] ∨ scheme = httpChars ∨ scheme = httpsChars) →
      (tail = [] ∨ ∃ c cs2, (c = '/' ∨ c = '?') ∧
        cs2.all (fun d => !(d == '\n')) = true ∧ tail = c :: cs2) →
      SpellingOf id (scheme ++ (cam4HostChars ++ (b ++ tail)))

/-- Code/claim agreement of the notify computation on an existing record,
factored over the two status arguments and the remaining boolean data. -/
theorem notify_formula_agrees (x y : StatusKind) (offN b : Bool) :
    ((!(x == y)) && (offN || (!(x == StatusKind.online) && y == StatusKind.online)) && b) =
      ((!(x == y)) && (offN || y == StatusKind.online) && b) := by
  cases x <;> cases y <;> cases offN <;> cases b <;> rfl

/-- C7: processing a check result with observed status Unknown mutates no
per-model persisted state, reports nothing, and only records one sample
(value `true`) into the health buffer. -/
theorem c7_unknown_is_noop (cfg : Config) (w : WorkerState) (ts : Int) :
    (processStatusUpdate cfg w StatusKind.unknown ts).state.model = w.model ∧
    (processStatusUpdate cfg w StatusKind.unknown ts).notify = false ∧
    (processStatusUpdate cfg w StatusKind.unknown ts).goneReported = false ∧
    (processStatusUpdate cfg w StatusKind.unknown ts).state.health =
      recordUnknown cfg.errorDenominator w.health true := by
  refine ⟨rfl, rfl, rfl, rfl⟩

/-- C10: for a model with no `signals` row, `updateStatus` never notifies and
never creates a `statuses` row. -/
theorem c10_unwatched_never_notifies (cfg : Config) (s : ModelState)
    (st : StatusKind) (ts : Int) (hs : s.signals = 0) :
    (updateStatus cfg s st ts).1 = false ∧
      (s.record = none → (updateStatus cfg s st ts).2.record = none) := by
  unfold updateStatus
  constructor
  · split
    · simp [hs]
    · simp [hs]
  · intro hr
    split
    · simp [hs, hr]
    · simp [hs, hr]

/-- C10 witness. -/
theorem c10_unwatched_never_notifies_witness :
    (updateStatus ⟨false, 30, 2, 1, 10, 60⟩ ⟨0, none⟩ StatusKind.online 100).1 = false ∧
      (updateStatus ⟨false, 30, 2, 1, 10, 60⟩ ⟨0, none⟩ StatusKind.online 100).2.record = none := by
  have h := c10_unwatched_never_notifies ⟨false, 30, 2, 1, 10, 60⟩ ⟨0, none⟩
    StatusKind.online 100 rfl
  exact ⟨h.1, h.2 rfl⟩

/-- On an existing record, `updateStatus` with a non-NotFound status resets the
streak, stores the observed status, and refreshes `last_online` exactly when the
new status is Online and the model is watched. -/
theorem updateStatus_record_shape (cfg : Config) (s : ModelState)
    (st : StatusKind) (ts : Int) (r : StatusRecord) (hnf : st ≠ StatusKind.notFound)
    (hr : s.record = some r) (hw : s.signals ≠ 0) :
    updateStatus cfg s st ts =
      ((!(r.status == st)) &&
          (cfg.offlineNotifications ||
            (!(r.status == StatusKind.online) && st == StatusKind.online)) &&
          (cfg.offlineNotifications ||
            decide (ts - r.lastOnline ≥ cfg.offlineThresholdSeconds)),
        { s with record :=
            (some ⟨st, 0, if st = StatusKind.online then ts else r.lastOnline⟩) }) := by
  unfold updateStatus
  rw [hr]
  simp [hnf, hw]

/-- C2 (counterexample): for a watched model with no existing `statuses` row,
observed status Offline, offline notifications disabled, the code notifies
(`updateStatus` returns `true`) while the claimed formula — prior status
Unknown, prior last-online 0 — evaluates to `false`. -/
theorem c2_notify_rule_counterexample :
    (updateStatus ⟨false, 30, 2, 1, 10, 60⟩ ⟨1, none⟩ StatusKind.offline 100).1 = true ∧
      claimNotify ⟨false, 30, 2, 1, 10, 60⟩ StatusKind.unknown 0 StatusKind.offline 100 =
        false := by
  exact ⟨rfl, rfl⟩

/-- C2 (amended): for a watched model with an existing StatusRecord, a
notification is emitted iff `storedStatus ≠ observedStatus AND changeAllowed
AND durationAllowed` exactly as the claim states; for a watched model with no
StatusRecord, a row is created and the result always notifies. -/
theorem c2_notify_rule_amended (cfg : Config) (s : ModelState) (st : StatusKind)
    (ts : Int) (hw : s.signals ≠ 0)
    (hst : st = StatusKind.online ∨ st = StatusKind.offline ∨ st = StatusKind.denied) :
    (∀ r : StatusRecord, s.record = some r →
        (updateStatus cfg s st ts).1 = claimNotify cfg r.status r.lastOnline st ts) ∧
      (s.record = none → (updateStatus cfg s st ts).1 = true) := by
  have hnf : st ≠ StatusKind.notFound := by
    rcases hst with h | h | h <;> simp [h]
  constructor
  · intro r hr
    rw [updateStatus_record_shape cfg s st ts r hnf hr hw]
    unfold claimNotify
    exact notify_formula_agrees r.status st cfg.offlineNotifications _
  · intro hr
    unfold updateStatus
    rw [hr]
    simp [hnf, hw]

/-- C2 witness. -/
theorem c2_notify_rule_amended_witness :
    (updateStatus ⟨false, 30, 2, 1, 10, 60⟩ ⟨1, some ⟨StatusKind.offline, 0, 0⟩⟩
        StatusKind.online 100).1 =
      claimNotify ⟨false, 30, 2, 1, 10, 60⟩ StatusKind.offline 0 StatusKind.online 100 := by
  exact (c2_notify_rule_amended ⟨false, 30, 2, 1, 10, 60⟩ ⟨1, some ⟨StatusKind.offline, 0, 0⟩⟩
    StatusKind.online 100 (by decide) (Or.inl rfl)).1 ⟨StatusKind.offline, 0, 0⟩ rfl

/-- With a non-NotFound status, any record left by `updateStatus` carries a
zero `not_found` streak (the reset happens before the `signals` guard). -/
theorem updateStatus_resets_streak (cfg : Config) (s : ModelState)
    (st : StatusKind) (ts : Int) (hnf : st ≠ StatusKind.notFound) :
    ∀ r' : StatusRecord, (updateStatus cfg s st ts).2.record = some r' →
      r'.notFound = 0 := by
  intro r' h
  rcases s with ⟨sig, rec⟩
  unfold updateStatus at h
  rcases rec with _ | r0
  · by_cases hsig : sig = 0
    · simp [hnf, hsig] at h
    · simp [hnf, hsig] at h
      subst h
      rfl
  · by_cases hsig : sig = 0
    · simp [hnf, hsig] at h
      subst h
      rfl
    · simp [hnf, hsig] at h
      subst h
      rfl

/-- C5 (counterexample): an Unknown observation — which is not NotFound — does
not reset the streak: with a persisted streak of 3 the record is left at 3. -/
theorem c5_streak_reset_counterexample :
    (processStatusUpdate ⟨false, 30, 2, 1, 2, 60⟩
        ⟨⟨1, some ⟨StatusKind.offline, 3, 0⟩⟩, ⟨[false, false], 0⟩⟩
        StatusKind.unknown 100).state.model.record =
      some ⟨StatusKind.offline, 3, 0⟩ := by
  exact rfl

/-- C5 (amended): processing an observation with status Online, Offline, or
Denied resets `notFoundStreak` to 0 regardless of its prior value; Unknown
observations leave the persisted state untouched. -/
theorem c5_streak_reset_amended (cfg : Config) (w : WorkerState)
    (st : StatusKind) (ts : Int)
    (hst : st = StatusKind.online ∨ st = StatusKind.offline ∨ st = StatusKind.denied) :
    ∀ r' : StatusRecord,
      (processStatusUpdate cfg w st ts).state.model.record = some r' →
        r'.notFound = 0 := by
  have hnf : st ≠ StatusKind.notFound := by
    rcases hst with h | h | h <;> simp [h]
  have hnu : st ≠ StatusKind.unknown := by
    rcases hst with h | h | h <;> simp [h]
  intro r' h
  unfold processStatusUpdate at h
  simp [hnf, hnu] at h
  exact updateStatus_resets_streak cfg w.model st ts hnf r' h

/-- C5 witness. -/
theorem c5_streak_reset_amended_witness :
    StatusRecord.notFound ⟨StatusKind.online, 0, 100⟩ = 0 := by
  exact c5_streak_reset_amended ⟨false, 30, 2, 1, 2, 60⟩
    ⟨⟨1, some ⟨StatusKind.offline, 7, 0⟩⟩, ⟨[false, false], 0⟩⟩
    StatusKind.online 100 (Or.inl rfl) ⟨StatusKind.online, 0, 100⟩ rfl

/-- On an existing record, the `last_online` column after `updateStatus` is the
observation timestamp exactly when the effective new status is Online and the
model is watched; otherwise it is untouched. -/
theorem updateStatus_lastOnline_shape (cfg : Config) (s : ModelState)
    (st : StatusKind) (ts : Int) (r : StatusRecord) (hr : s.record = some r) :
    ∀ r' : StatusRecord, (updateStatus cfg s st ts).2.record = some r' →
      r'.lastOnline =
        if st = StatusKind.online ∧ s.signals ≠ 0 then ts else r.lastOnline := by
  intro r' h
  unfold updateStatus at h
  by_cases hnf : st = StatusKind.notFound
  · subst hnf
    by_cases hsig : s.signals = 0
    · simp [hr, hsig] at h
      subst h
      simp
    · simp [hr, hsig] at h
      subst h
      simp
  · by_cases hsig : s.signals = 0
    · simp [hnf, hr, hsig] at h
      subst h
      simp [hsig]
    · simp [hnf, hr, hsig] at h
      subst h
      by_cases hon : st = StatusKind.online
      · simp [hon, hsig]
      · simp [hon, hsig]

/-- C6 (counterexample): an Online observation for a model already stored as
Online (no transition) still moves `last_online` from 10 to the new timestamp
20, while the claim requires it to stay unchanged. -/
theorem c6_lastOnline_counterexample :
    (updateStatus ⟨false, 30, 2, 1, 2, 60⟩ ⟨1, some ⟨StatusKind.online, 0, 10⟩⟩
        StatusKind.online 20).2.record = some ⟨StatusKind.online, 0, 20⟩ := by
  exact rfl

/-- C6 (amended): `lastOnlineTimestamp` is set to the observation timestamp
exactly when the observed status is Online and the model is watched — including
Online→Online re-observations — and is left unchanged by every other processed
observation. -/
theorem c6_lastOnline_amended (cfg : Config) (w : WorkerState) (r : StatusRecord)
    (st : StatusKind) (ts : Int) (hr : w.model.record = some r) :
    ∀ r' : StatusRecord,
      (processStatusUpdate cfg w st ts).state.model.record = some r' →
        r'.lastOnline =
          if st = StatusKind.online ∧ w.model.signals ≠ 0 then ts
          else r.lastOnline := by
  intro r' h
  by_cases hnf : st = StatusKind.notFound
  · subst hnf
    unfold processStatusUpdate at h
    by_cases hth : r.notFound + 1 > cfg.notFoundThreshold
    · simp [notFound, hr, hth, removeNotFound, cleanStatuses, updateStatus] at h
    · simp only [notFound, hr] at h
      simp [hth, updateStatus] at h
      by_cases hsig : w.model.signals = 0
      · simp [hsig] at h
        subst h
        simp
      · simp [hsig] at h
        subst h
        simp
  · by_cases hnu : st = StatusKind.unknown
    · subst hnu
      unfold processStatusUpdate at h
      simp at h
      rw [hr] at h
      injection h with h
      subst h
      simp
    · unfold processStatusUpdate at h
      simp [hnf, hnu] at h
      exact updateStatus_lastOnline_shape cfg w.model st ts r hr r' h

/-- C6 witness. -/
theorem c6_lastOnline_amended_witness :
    StatusRecord.lastOnline ⟨StatusKind.online, 0, 20⟩ =
      (if StatusKind.online = StatusKind.online ∧ (1 : Nat) ≠ 0 then (20 : Int)
        else 10) := by
  exact c6_lastOnline_amended ⟨false, 30, 2, 1, 2, 60⟩
    ⟨⟨1, some ⟨StatusKind.online, 0, 10⟩⟩, ⟨[false, false], 0⟩⟩
    ⟨StatusKind.online, 0, 10⟩ StatusKind.online 20 rfl
    ⟨StatusKind.online, 0, 20⟩ rfl

/-- C4: for a watched model with a persisted StatusRecord, a NotFound result
increments the streak and persists status Offline (never NotFound); the
"permanently gone" path runs exactly when the incremented streak exceeds
`NotFoundThreshold`, and it deletes the subscriptions and the record, after
which a further NotFound result cannot trigger the path again. -/
theorem c4_notfound_streak (cfg : Config) (w : WorkerState) (r : StatusRecord)
    (ts ts2 : Int) (hr : w.model.record = some r) (hw : w.model.signals ≠ 0) :
    ((processStatusUpdate cfg w StatusKind.notFound ts).goneReported = true ↔
        r.notFound + 1 > cfg.notFoundThreshold) ∧
      (r.notFound + 1 ≤ cfg.notFoundThreshold →
        (processStatusUpdate cfg w StatusKind.notFound ts).state.model.record =
          some ⟨StatusKind.offline, r.notFound + 1, r.lastOnline⟩) ∧
      (r.notFound + 1 > cfg.notFoundThreshold →
        (processStatusUpdate cfg w StatusKind.notFound ts).state.model =
            ⟨0, none⟩ ∧
          (processStatusUpdate cfg
              (processStatusUpdate cfg w StatusKind.notFound ts).state
              StatusKind.notFound ts2).goneReported = false) := by
  by_cases hth : r.notFound + 1 > cfg.notFoundThreshold
  · refine ⟨?_, ?_, ?_⟩
    · simp [processStatusUpdate, notFound, hr, hth]
    · intro hle
      omega
    · intro _
      constructor
      · simp [processStatusUpdate, notFound, hr, hth, removeNotFound,
          cleanStatuses, updateStatus]
      · simp [processStatusUpdate, notFound, hr, hth, removeNotFound,
          cleanStatuses, updateStatus]
  · refine ⟨?_, ?_, ?_⟩
    · simp [processStatusUpdate, notFound, hr, hth]
    · intro _
      simp [processStatusUpdate, notFound, hr, hth, updateStatus, hw]
    · intro hgt
      omega

/-- C4 witness. -/
theorem c4_notfound_streak_witness :
    ((processStatusUpdate ⟨false, 30, 2, 1, 2, 60⟩
        ⟨⟨1, some ⟨StatusKind.online, 0, 10⟩⟩, ⟨[false, false], 0⟩⟩
        StatusKind.notFound 100).goneReported = true ↔
      (0 : Nat) + 1 > 2) := by
  exact (c4_notfound_streak ⟨false, 30, 2, 1, 2, 60⟩
    ⟨⟨1, some ⟨StatusKind.online, 0, 10⟩⟩, ⟨[false, false], 0⟩⟩
    ⟨StatusKind.online, 0, 10⟩ 100 200 rfl (by decide)).1

/-- C8: `processPeriodic` raises the error-rate alert iff the unknowns count
strictly exceeds `errorThreshold` and the cooldown (`nextErrorReport`) has
elapsed; raising moves the cooldown to `now + period`, so no further alert can
be raised at any instant up to and including `now + period`; without an alert
the state is untouched. -/
theorem c8_error_rate_alert (cfg : Config) (now : Int) (s : PeriodicState) :
    ((processPeriodic cfg now s).1 = true ↔
        (unknownsNumber s.unknowns > cfg.errorThreshold ∧ s.nextErrorReport < now)) ∧
      ((processPeriodic cfg now s).1 = true →
        (processPeriodic cfg now s).2.nextErrorReport =
            now + cfg.errorReportingPeriod ∧
          ∀ now2 : Int, now2 ≤ now + cfg.errorReportingPeriod →
            (processPeriodic cfg now2 (processPeriodic cfg now s).2).1 = false) ∧
      ((processPeriodic cfg now s).1 = false → (processPeriodic cfg now s).2 = s) := by
  by_cases hc : s.nextErrorReport < now ∧ unknownsNumber s.unknowns > cfg.errorThreshold
  · refine ⟨?_, ?_, ?_⟩
    · simp [processPeriodic, hc]
    · intro _
      constructor
      · simp [processPeriodic, hc]
      · intro now2 h2
        have : ¬(now + cfg.errorReportingPeriod < now2) := by omega
        simp [processPeriodic, hc, this]
    · intro hfalse
      simp [processPeriodic, hc] at hfalse
  · refine ⟨?_, ?_, ?_⟩
    · simp [processPeriodic, hc]
      intro hcount
      have h1 : ¬s.nextErrorReport < now := fun hb => hc ⟨hb, hcount⟩
      omega
    · intro htrue
      simp [processPeriodic, hc] at htrue
    · intro _
      simp [processPeriodic, hc]

/-- C8 witness (the spec's scenario C: buffer of 10 with 6 Unknowns and
threshold 5 fires one alert; a repeat before the cooldown elapses fires none). -/
theorem c8_error_rate_alert_witness :
    (processPeriodic ⟨false, 30, 2, 5, 10, 60⟩ 100
        ⟨[true, true, true, true, true, true, false, false, false, false], 0⟩).1 =
        true ∧
      (processPeriodic ⟨false, 30, 2, 5, 10, 60⟩ 160
        (processPeriodic ⟨false, 30, 2, 5, 10, 60⟩ 100
          ⟨[true, true, true, true, true, true, false, false, false, false], 0⟩).2).1 =
        false := by
  constructor
  · exact (c8_error_rate_alert ⟨false, 30, 2, 5, 10, 60⟩ 100
      ⟨[true, true, true, true, true, true, false, false, false, false], 0⟩).1.mpr
      ⟨by decide, by decide⟩
  · exact ((c8_error_rate_alert ⟨false, 30, 2, 5, 10, 60⟩ 100
      ⟨[true, true, true, true, true, true, false, false, false, false], 0⟩).2.1
      (by decide)).2 160 (by decide)

/-- No value on the `elapsed` channel comes from the per-model update sends. -/
theorem elapsedEmissions_map_update (us : List StatusUpdate) :
    elapsedEmissions (us.map Emission.update) = [] := by
  induction us with
  | nil => rfl
  | cons a l ih =>
      simp only [List.map_cons, elapsedEmissions, List.filterMap_cons] at *
      exact ih

/-- The `output`-channel sends of a round are exactly its update list. -/
theorem updateEmissions_map_update (us : List StatusUpdate) :
    updateEmissions (us.map Emission.update) = us := by
  induction us with
  | nil => rfl
  | cons a l ih =>
      simp only [List.map_cons, updateEmissions, List.filterMap_cons] at *
      rw [ih]

/-- C1 (counterexample): on a successful response decoding to a zero-length
roster, the Cam4 batch checker reports no error (success with empty maps), and
the Stripchat API checker classifies a watched model as Offline. -/
theorem c1_zero_roster_counterexample :
    (cam4CheckEndpoint (QueryOutcome.response 200 (DecodeOutcome.parsed []))).err =
        none ∧
      stripchatRoundUpdates ["alice"]
          (QueryOutcome.response 200 (DecodeOutcome.parsed [])) =
        [⟨"alice", StatusKind.offline⟩] := by
  exact ⟨rfl, rfl⟩

/-- C1 (amended): only the BongaCams batch checker surfaces a zero-length
successful roster as an explicit round-level error with empty maps; decoding
failures and non-200 responses yield an error and empty maps in the BongaCams
and Cam4 batch checkers and all-Unknown results (never Offline) in the
Stripchat API checker; but on a zero-length roster the Cam4 checker returns
success with empty maps and the Stripchat checker marks every watched model
Offline. -/
theorem c1_roster_error_handling_amended :
    (∀ parsed : List BongacamsModel, parsed = [] →
        bongaCamsCheckEndpoint (QueryOutcome.response 200 (DecodeOutcome.parsed parsed)) =
          ⟨[], [], some CheckError.zeroOnlineModels⟩) ∧
      (∀ code : Nat, code ≠ 200 →
        (∀ body : DecodeOutcome (List BongacamsModel),
            bongaCamsCheckEndpoint (QueryOutcome.response code body) =
              ⟨[], [], some (CheckError.queryStatus code)⟩) ∧
          (∀ body : DecodeOutcome (List Cam4Model),
              cam4CheckEndpoint (QueryOutcome.response code body) =
                ⟨[], [], some (CheckError.queryStatus code)⟩) ∧
          (∀ (models : List String) (body : DecodeOutcome (List StripchatModel)),
              stripchatRoundUpdates models (QueryOutcome.response code body) =
                sendUnknowns models)) ∧
      bongaCamsCheckEndpoint QueryOutcome.queryError =
        ⟨[], [], some CheckError.sendError⟩ ∧
      cam4CheckEndpoint QueryOutcome.queryError =
        ⟨[], [], some CheckError.sendError⟩ ∧
      bongaCamsCheckEndpoint (QueryOutcome.response 200 DecodeOutcome.decodeError) =
        ⟨[], [], some CheckError.parseError⟩ ∧
      cam4CheckEndpoint (QueryOutcome.response 200 DecodeOutcome.decodeError) =
        ⟨[], [], some CheckError.parseError⟩ ∧
      (∀ models : List String,
        stripchatRoundUpdates models QueryOutcome.queryError = sendUnknowns models) ∧
      (∀ models : List String,
        stripchatRoundUpdates models (QueryOutcome.response 200 DecodeOutcome.decodeError) =
          sendUnknowns models) ∧
      cam4CheckEndpoint (QueryOutcome.response 200 (DecodeOutcome.parsed [])) =
        ⟨[], [], none⟩ ∧
      (∀ models : List String,
        stripchatRoundUpdates models (QueryOutcome.response 200 (DecodeOutcome.parsed [])) =
          models.map (fun m => ⟨m, StatusKind.offline⟩)) := by
  refine ⟨?_, ?_, rfl, rfl, rfl, rfl, fun _ => rfl, fun _ => rfl, rfl, ?_⟩
  · intro parsed hp
    subst hp
    rfl
  · intro code hcode
    refine ⟨?_, ?_, ?_⟩
    · intro body
      simp [bongaCamsCheckEndpoint, hcode]
    · intro body
      simp [cam4CheckEndpoint, hcode]
    · intro models body
      simp [stripchatRoundUpdates, hcode]
  · intro models
    rfl

/-- C1 witness. -/
theorem c1_roster_error_handling_amended_witness :
    bongaCamsCheckEndpoint (QueryOutcome.response 200 (DecodeOutcome.parsed [])) =
        ⟨[], [], some CheckError.zeroOnlineModels⟩ ∧
      cam4CheckEndpoint
          (QueryOutcome.response 503 (DecodeOutcome.parsed ([] : List Cam4Model))) =
        ⟨[], [], some (CheckError.queryStatus 503)⟩ := by
  exact ⟨c1_roster_error_handling_amended.1 [] rfl,
    (c1_roster_error_handling_amended.2.1 503 (by decide)).2.1
      (DecodeOutcome.parsed [])⟩

/-- Reading off the elapsed channel past the leading elapsed send. -/
theorem elapsedEmissions_cons (d : Int) (l : List Emission) :
    elapsedEmissions (Emission.elapsedValue d :: l) = d :: elapsedEmissions l := rfl

/-- The leading elapsed send contributes nothing on the output channel. -/
theorem updateEmissions_cons (d : Int) (l : List Emission) :
    updateEmissions (Emission.elapsedValue d :: l) = updateEmissions l := rfl

/-- Projecting the IDs of per-model updates built over a watch-list gives the
watch-list back. -/
theorem map_modelID_mk (models : List String) (f : String → StatusKind) :
    (models.map (fun m => StatusUpdate.mk m (f m))).map StatusUpdate.modelID =
      models := by
  induction models with
  | nil => rfl
  | cons a l ih => simp only [List.map_cons, ih]

/-- The status of any member of a per-model update list is given by the
status function at its own ID. -/
theorem mem_map_mk_status (models : List String) (f : String → StatusKind)
    (u : StatusUpdate) (hu : u ∈ models.map (fun m => StatusUpdate.mk m (f m))) :
    u.status = f u.modelID := by
  rcases List.mem_map.mp hu with ⟨m, _, rfl⟩
  rfl

/-- C3: each round of the Stripchat API checker sends exactly one elapsed
duration and exactly one status update per watched model (in watch-list
order); on any failure every model's status is Unknown, and on success a model
is Online iff it occurs (lower-cased) in the roster, else Offline. -/
theorem c3_round_shape (models : List String)
    (q : QueryOutcome (List StripchatModel)) (e : Int) :
    elapsedEmissions (stripchatRound models q e) = [e] ∧
      updateEmissions (stripchatRound models q e) = stripchatRoundUpdates models q ∧
      (stripchatRoundUpdates models q).map StatusUpdate.modelID = models ∧
      (q = QueryOutcome.queryError →
        ∀ u ∈ stripchatRoundUpdates models q, u.status = StatusKind.unknown) ∧
      (∀ (code : Nat) (body : DecodeOutcome (List StripchatModel)),
        q = QueryOutcome.response code body →
        (code = 200 → body = DecodeOutcome.decodeError) →
        ∀ u ∈ stripchatRoundUpdates models q, u.status = StatusKind.unknown) ∧
      (∀ parsed : List StripchatModel,
        q = QueryOutcome.response 200 (DecodeOutcome.parsed parsed) →
        ∀ u ∈ stripchatRoundUpdates models q,
          u.status =
            if (parsed.map (fun m => lowerStr m.username)).contains u.modelID
            then StatusKind.online else StatusKind.offline) := by
  have hred : ∀ (code : Nat) (body : DecodeOutcome (List StripchatModel)),
      code ≠ 200 →
      stripchatRoundUpdates models (QueryOutcome.response code body) =
        sendUnknowns models := by
    intro code body hcode
    simp [stripchatRoundUpdates, hcode]
  refine ⟨?_, ?_, ?_, ?_, ?_, ?_⟩
  · show elapsedEmissions
      (Emission.elapsedValue e :: (stripchatRoundUpdates models q).map Emission.update) = [e]
    rw [elapsedEmissions_cons, elapsedEmissions_map_update]
  · show updateEmissions
      (Emission.elapsedValue e :: (stripchatRoundUpdates models q).map Emission.update) =
        stripchatRoundUpdates models q
    rw [updateEmissions_cons, updateEmissions_map_update]
  · rcases q with _ | ⟨code, body⟩
    · exact map_modelID_mk models _
    · by_cases hcode : code = 200
      · subst hcode
        rcases body with _ | parsed
        · exact map_modelID_mk models _
        · exact map_modelID_mk models _
      · rw [hred code body hcode]
        exact map_modelID_mk models _
  · intro hq u hu
    subst hq
    exact mem_map_mk_status models _ u hu
  · intro code body hq hbody u hu
    subst hq
    by_cases hcode : code = 200
    · subst hcode
      rw [hbody rfl] at hu
      exact mem_map_mk_status models _ u hu
    · rw [hred code body hcode] at hu
      exact mem_map_mk_status models _ u hu
  · intro parsed hq u hu
    subst hq
    exact mem_map_mk_status models _ u hu

/-- C3 witness. -/
theorem c3_round_shape_witness :
    elapsedEmissions (stripchatRound ["a"] QueryOutcome.queryError 5) = [5] ∧
      StatusUpdate.status ⟨"a", StatusKind.unknown⟩ = StatusKind.unknown := by
  refine ⟨(c3_round_shape ["a"] QueryOutcome.queryError 5).1, ?_⟩
  exact (c3_round_shape ["a"] QueryOutcome.queryError 5).2.2.2.1 rfl
    ⟨"a", StatusKind.unknown⟩ (by simp [stripchatRoundUpdates, sendUnknowns])

/-- A successful literal strip exposes the literal as a leading part. -/
theorem dropPfx_some_append (p : List Char) :
    ∀ cs r, dropPfx p cs = some r → cs = p ++ r := by
  induction p with
  | nil =>
      intro cs r h
      simp [dropPfx] at h
      rw [h]
      rfl
  | cons a ps ih =>
      intro cs r h
      cases cs with
      | nil => simp [dropPfx] at h
      | cons c cs' =>
          by_cases hca : c = a
          · subst hca
            simp [dropPfx] at h
            rw [ih cs' r h]
            rfl
          · simp [dropPfx, hca] at h

/-- Stripping a literal off itself succeeds with the remainder. -/
theorem dropPfx_append_self (p r : List Char) : dropPfx p (p ++ r) = some r := by
  induction p with
  | nil => rfl
  | cons a ps ih => simp [dropPfx, ih]

/-- A literal containing a non-word character never strips off an all-word
input. -/
theorem dropPfx_none_of_wordChars (p cs : List Char) (x : Char) (hxp : x ∈ p)
    (hxw : isWordChar x = false) (hall : ∀ c ∈ cs, isWordChar c = true) :
    dropPfx p cs = none := by
  cases h : dropPfx p cs with
  | none => rfl
  | some r =>
      have hcs := dropPfx_some_append p cs r h
      have hx : x ∈ cs := by
        rw [hcs]
        exact List.mem_append_left r hxp
      rw [hall x hx] at hxw
      simp at hxw

/-- An all-word input has no scheme to strip. -/
theorem stripScheme_of_wordChars (cs : List Char)
    (hall : ∀ c ∈ cs, isWordChar c = true) : stripScheme cs = cs := by
  simp [stripScheme,
    dropPfx_none_of_wordChars httpsChars cs ':' (by decide) (by decide) hall,
    dropPfx_none_of_wordChars httpChars cs ':' (by decide) (by decide) hall]

/-- The profile-URL regex never matches a bare all-word identifier. -/
theorem cam4ExtractChars_of_wordChars (cs : List Char)
    (hall : ∀ c ∈ cs, isWordChar c = true) : cam4ExtractChars cs = none := by
  simp [cam4ExtractChars, stripScheme_of_wordChars cs hall,
    dropPfx_none_of_wordChars cam4HostChars cs '.' (by decide) (by decide) hall]

/-- `takeWhile` passes over a leading all-satisfying block. -/
theorem takeWhile_append_of_all (p : Char → Bool) (b t : List Char)
    (hb : ∀ c ∈ b, p c = true) : (b ++ t).takeWhile p = b ++ t.takeWhile p := by
  induction b with
  | nil => rfl
  | cons a l ih =>
      have ha : p a = true := hb a (List.mem_cons_self a l)
      simp only [List.cons_append, List.takeWhile_cons, ha, if_true]
      rw [ih (fun c hc => hb c (List.mem_cons_of_mem a hc))]

/-- `dropWhile` drops a leading all-satisfying block. -/
theorem dropWhile_append_of_all (p : Char → Bool) (b t : List Char)
    (hb : ∀ c ∈ b, p c = true) : (b ++ t).dropWhile p = t.dropWhile p := by
  induction b with
  | nil => rfl
  | cons a l ih =>
      have ha : p a = true := hb a (List.mem_cons_self a l)
      simp only [List.cons_append, List.dropWhile_cons, ha, if_true]
      exact ih (fun c hc => hb c (List.mem_cons_of_mem a hc))

/-- Case-equivalent lists have equal length, so the variant of a non-empty
identifier is non-empty. -/
theorem sameLetters_ne_nil (b id : List Char) (hb : sameLetters b id)
    (hid : id ≠ []) : b ≠ [] := by
  intro hbemp
  subst hbemp
  apply hid
  unfold sameLetters at hb
  cases id with
  | nil => rfl
  | cons x xs => simp at hb

/-- The optional-scheme strip on a full profile URL leaves the host part. -/
theorem stripScheme_url (scheme rest : List Char)
    (hscheme : scheme = [] ∨ scheme = httpChars ∨ scheme = httpsChars) :
    stripScheme (scheme ++ (cam4HostChars ++ rest)) = cam4HostChars ++ rest := by
  rcases hscheme with h | h | h <;> subst h
  · have hns : dropPfx httpsChars (cam4HostChars ++ rest) = none := rfl
    have hnh : dropPfx httpChars (cam4HostChars ++ rest) = none := rfl
    simp only [List.nil_append, stripScheme, hns, hnh]
  · have hns : dropPfx httpsChars (httpChars ++ (cam4HostChars ++ rest)) = none := rfl
    simp only [stripScheme, hns, dropPfx_append_self httpChars _]
  · simp only [stripScheme, dropPfx_append_self httpsChars _]

/-- The word capture on a bare non-empty word identifier. -/
theorem cam4Word_wordChars (b : List Char) (hbw : ∀ c ∈ b, isWordChar c = true)
    (hbne : b ≠ []) : cam4Word b = some b := by
  have hbempty : b.isEmpty = false := by simp [List.isEmpty_iff, hbne]
  simp [cam4Word, List.takeWhile_eq_self_iff.mpr hbw,
    List.dropWhile_eq_nil_iff.mpr hbw, hbempty]

/-- The word capture on a word identifier followed by a `/`- or `?`-introduced
newline-free trailing part. -/
theorem cam4Word_word_tail (b : List Char) (c : Char) (cs2 : List Char)
    (hbw : ∀ x ∈ b, isWordChar x = true) (hbne : b ≠ [])
    (hc : c = '/' ∨ c = '?') (hnl : cs2.all (fun d => !(d == '\n')) = true) :
    cam4Word (b ++ (c :: cs2)) = some b := by
  have hbempty : b.isEmpty = false := by simp [List.isEmpty_iff, hbne]
  have hcw : isWordChar c = false := by
    rcases hc with rfl | rfl <;> decide
  have hw2 : (b ++ (c :: cs2)).takeWhile isWordChar = b := by
    rw [takeWhile_append_of_all _ b _ hbw]
    simp [List.takeWhile_cons, hcw]
  have hd2 : (b ++ (c :: cs2)).dropWhile isWordChar = c :: cs2 := by
    rw [dropWhile_append_of_all _ b _ hbw]
    simp [List.dropWhile_cons, hcw]
  unfold cam4Word
  rw [hw2, hd2]
  show (if b.isEmpty = true then none
      else if (c = '/' ∨ c = '?') ∧ cs2.all (fun d => !(d == '\n')) = true then some b
      else none) = some b
  rw [hbempty]
  rw [if_neg (by simp)]
  rw [if_pos ⟨hc, hnl⟩]

/-- The regex matches every profile-URL spelling and captures the identifier
portion. -/
theorem cam4ExtractChars_url (scheme b tail : List Char)
    (hbw : ∀ c ∈ b, isWordChar c = true) (hbne : b ≠ [])
    (hscheme : scheme = [] ∨ scheme = httpChars ∨ scheme = httpsChars)
    (htail : tail = [] ∨ ∃ c cs2, (c = '/' ∨ c = '?') ∧
      cs2.all (fun d => !(d == '\n')) = true ∧ tail = c :: cs2) :
    cam4ExtractChars (scheme ++ (cam4HostChars ++ (b ++ tail))) = some b := by
  have h1 : dropPfx cam4HostChars
      (stripScheme (scheme ++ (cam4HostChars ++ (b ++ tail)))) = some (b ++ tail) := by
    rw [stripScheme_url scheme (b ++ tail) hscheme]
    exact dropPfx_append_self _ _
  have h2 : cam4ExtractChars (scheme ++ (cam4HostChars ++ (b ++ tail))) =
      cam4Word (b ++ tail) := by
    simp only [cam4ExtractChars, h1]
  rw [h2]
  rcases htail with h | ⟨c, cs2, hc, hnl, h⟩
  · subst h
    rw [List.append_nil]
    exact cam4Word_wordChars b hbw hbne
  · subst h
    exact cam4Word_word_tail b c cs2 hbw hbne hc hnl

/-- Every spelling of an identifier canonicalizes to its lower-cased form. -/
theorem cam4Canonical_of_spelling (id s : List Char) (hid : id ≠ [])
    (hs : SpellingOf id s) :
    Cam4CanonicalModelID (String.mk s) = String.mk (id.map Char.toLower) := by
  rcases hs with ⟨b0, hbw, hb⟩ | ⟨scheme, b, tail, hbw, hb, hscheme, htail⟩
  · unfold Cam4CanonicalModelID
    rw [show (String.mk s).toList = s from rfl]
    rw [cam4ExtractChars_of_wordChars s hbw]
    exact congrArg String.mk hb
  · have hbne : b ≠ [] := sameLetters_ne_nil b id hb hid
    unfold Cam4CanonicalModelID
    rw [show (String.mk (scheme ++ (cam4HostChars ++ (b ++ tail)))).toList =
      scheme ++ (cam4HostChars ++ (b ++ tail)) from rfl]
    rw [cam4ExtractChars_url scheme b tail hbw hbne hscheme htail]
    exact congrArg String.mk hb

/-- C9: any two spellings of the same non-empty identifier — case variants,
bare or in full profile-URL form — canonicalize to the identical lower-cased
EntityID, and the Stripchat roster comparison classifies a model Online
exactly when some roster username lower-cases to its ID. -/
theorem c9_canonicalization (id s1 s2 : List Char) (hid : id ≠ [])
    (h1 : SpellingOf id s1) (h2 : SpellingOf id s2) :
    Cam4CanonicalModelID (String.mk s1) = Cam4CanonicalModelID (String.mk s2) ∧
      Cam4CanonicalModelID (String.mk s1) = String.mk (id.map Char.toLower) ∧
      (∀ (models : List String) (parsed : List StripchatModel) (u : StatusUpdate),
        u ∈ stripchatRoundUpdates models
            (QueryOutcome.response 200 (DecodeOutcome.parsed parsed)) →
        (u.status = StatusKind.online ↔
          ∃ m ∈ parsed, lowerStr m.username = u.modelID)) := by
  refine ⟨?_, cam4Canonical_of_spelling id s1 hid h1, ?_⟩
  · rw [cam4Canonical_of_spelling id s1 hid h1,
      cam4Canonical_of_spelling id s2 hid h2]
  · intro models parsed u hu
    have hst := mem_map_mk_status models _ u hu
    rw [hst]
    by_cases hc : (parsed.map (fun m => lowerStr m.username)).contains u.modelID = true
    · rw [if_pos hc]
      have hmem : u.modelID ∈ parsed.map (fun m => lowerStr m.username) := by
        simpa using hc
      rcases List.mem_map.mp hmem with ⟨m, hm, hme⟩
      exact ⟨fun _ => ⟨m, hm, hme⟩, fun _ => rfl⟩
    · rw [if_neg hc]
      constructor
      · intro hoff
        exact absurd hoff (by decide)
      · rintro ⟨m, hm, hme⟩
        exfalso
        apply hc
        simpa using List.mem_map.mpr ⟨m, hm, hme⟩

/-- C9 witness. -/
theorem c9_canonicalization_witness :
    Cam4CanonicalModelID (String.mk ['M', 'o', 'd', 'e', 'l']) =
      Cam4CanonicalModelID (String.mk (httpsChars ++ (cam4HostChars ++
        (['M', 'O', 'D', 'E', 'L'] ++ ['/', 'x'])))) := by
  exact (c9_canonicalization ['m', 'o', 'd', 'e', 'l'] ['M', 'o', 'd', 'e', 'l']
    (httpsChars ++ (cam4HostChars ++ (['M', 'O', 'D', 'E', 'L'] ++ ['/', 'x'])))
    (by decide)
    (SpellingOf.bare ['M', 'o', 'd', 'e', 'l'] (by decide) rfl)
    (SpellingOf.url httpsChars ['M', 'O', 'D', 'E', 'L'] ['/', 'x'] (by decide)
      rfl (Or.inr (Or.inr rfl))
      (Or.inr ⟨'/', ['x'], Or.inl rfl, by decide, rfl⟩))).1
